import Mathlib

/-!
Shallow embedding of the broadcast / validation / lead-confirmation logic of
the `barsa` repository (a Telegram bot pair plus a small HTTP API).

The definitions below are translated from the Python sources:

* `bot/barcelona_bots/utils/sending/sending.py`
  (`universal_broadcast`, `send_to_user`, `forward_message_with_entities`,
  `get_file_from_message`, the module-level `semaphore`);
* `bot/barcelona_bots/utils/sending/sending_handlers.py`
  (`validate_telegram_url`, `is_valid_button_text`, `handle_button_text`);
* `bot/barcelona_bots/database/queries.py` (`save_offer_confirmation`);
* `bot/barcelona_bots/api_server.py` (`confirm_offer`).

Network effects are modelled by oracles: a per-recipient platform outcome
function (`none` = the platform call succeeded, `some e` = it raised an
exception whose class name is `e`), and a `RelayOracle` for the platform
calls made inside the message relay.  The single-threaded cooperative
scheduling of asyncio makes each counter update atomic between suspension
points, so a broadcast run is modelled as a deterministic fold over the
recipient list; the within-chunk interleaving order does not affect the
statistics and is linearised in list order.
-/

set_option maxRecDepth 4000

namespace Barsa

/-- Python truthiness of an `Optional[str]`-valued attribute:
`None` and the empty string are falsy. -/
def pyTruthyOpt : Option String → Bool
  | none => false
  | some s => s != ""

/-- Python truthiness of the `photo : Optional[List[PhotoSize]]` attribute,
modelled as a list of file ids with `[]` standing for `None`/empty. -/
def pyTruthyList (l : List String) : Bool :=
  !l.isEmpty

/-- The duck-typed attributes of an aiogram `types.Message` that the sending
code branches on.  Media attributes carry an opaque file id; fields that never
influence control flow (entities, reply markup, chat ids) are omitted. -/
structure PyMessage where
  photo : List String
  video : Option String
  voice : Option String
  video_note : Option String
  text : Option String
  document : Option String
  caption : Option String
  audio : Option String
  sticker : Option String
deriving DecidableEq, Repr

/-- A `types.Message` with every attribute absent, used as a base for
concrete fixtures. -/
def emptyMsg : PyMessage :=
  { photo := [], video := none, voice := none, video_note := none,
    text := none, document := none, caption := none, audio := none,
    sticker := none }

/-- The `content` parameter of `universal_broadcast`:
`Union[str, types.Message]`. -/
inductive Content where
  | str (s : String)
  | msg (m : PyMessage)
deriving DecidableEq, Repr

/-- Which platform send primitive a per-recipient dispatch invokes. -/
inductive SendKind where
  | photo
  | video
  | voice
  | videoNote
  | textMsg
  | strMsg
deriving DecidableEq, Repr

/-- One issued platform send call (primitive used and recipient id). -/
structure SendCall where
  kind : SendKind
  uid : Int
deriving DecidableEq, Repr

/-- The body of the `try` block of `send_to_user` in `universal_broadcast`
(sending.py lines 102-196): the `if content.photo / elif ... / elif
isinstance(content, str)` chain.  Returns the platform send calls issued and
`some e` when an exception of class `e` escapes the chain.

On a bare `str` content the very first attribute probe `content.photo`
raises `AttributeError`, so no branch (including the dedicated
`isinstance(content, str)` branch) is ever reached.  On a `types.Message`
every attribute exists, and a message matching none of the five recognised
kinds falls through the whole chain issuing no send.  `platform uid` is the
outcome of the platform call for recipient `uid`. -/
def send_to_user_attempt (platform : Int → Option String) (content : Content)
    (uid : Int) : List SendCall × Option String :=
  match content with
  | .str _ => ([], some "AttributeError")
  | .msg m =>
    if pyTruthyList m.photo then
      ([⟨.photo, uid⟩], platform uid)
    else if pyTruthyOpt m.video then
      ([⟨.video, uid⟩], platform uid)
    else if pyTruthyOpt m.voice then
      ([⟨.voice, uid⟩], platform uid)
    else if pyTruthyOpt m.video_note then
      ([⟨.videoNote, uid⟩], platform uid)
    else if pyTruthyOpt m.text then
      ([⟨.textMsg, uid⟩], platform uid)
    else
      ([], none)

/-- The `stats` dictionary of `universal_broadcast`; `errors` is an
insertion-ordered association list mirroring a Python dict from
exception-class name to count. -/
@[ext]
structure Stats where
  total : Nat
  success : Nat
  failed : Nat
  errors : List (String × Nat)
deriving DecidableEq, Repr

/-- The dictionary created at the start of `universal_broadcast`:
`{'total': len(user_ids), 'success': 0, 'failed': 0, 'errors': {}}`. -/
def initStats (n : Nat) : Stats :=
  { total := n, success := 0, failed := 0, errors := [] }

/-- `stats['errors'][name] = stats['errors'].get(name, 0) + 1` on an
insertion-ordered dict. -/
def bumpError (errors : List (String × Nat)) (name : String) :
    List (String × Nat) :=
  match errors with
  | [] => [(name, 1)]
  | (k, v) :: rest =>
    if k = name then (k, v + 1) :: rest else (k, v) :: bumpError rest name

/-- Sum of the values of the `errors` dict. -/
def errSum (errors : List (String × Nat)) : Nat :=
  (errors.map Prod.snd).sum

/-- The statistics update performed by one completed `send_to_user` task:
no exception increments `success` (the increment sits after the whole
dispatch chain, so it also fires when no branch matched); an exception of
class `e` increments `errors[e]` and `failed`. -/
def updateStats (platform : Int → Option String) (content : Content)
    (s : Stats) (uid : Int) : Stats :=
  match (send_to_user_attempt platform content uid).2 with
  | none => { s with success := s.success + 1 }
  | some e => { s with failed := s.failed + 1, errors := bumpError s.errors e }

/-- Statistics after the tasks for the listed recipients have all settled. -/
def statsAfter (platform : Int → Option String) (content : Content) :
    List Int → Stats → Stats
  | [], s => s
  | uid :: rest, s =>
    statsAfter platform content rest (updateStats platform content s uid)

/-- Observable events of one broadcast run, in program order. -/
inductive Event where
  | semAcquire
  | semRelease
  | relayInvoke
  | send (kind : SendKind) (uid : Int)
  | sleepEvt
deriving DecidableEq, Repr

/-- Whether an event is a platform send to a broadcast recipient. -/
def isSend : Event → Bool
  | .send _ _ => true
  | _ => false

/-- Whether an event is an invocation of `asyncio.sleep(throttle_delay *
chunk_size)` at the end of a chunk. -/
def isSleep : Event → Bool
  | .sleepEvt => true
  | _ => false

/-- Whether an event is an invocation of `forward_message_with_entities`. -/
def isRelay : Event → Bool
  | .relayInvoke => true
  | _ => false

/-- One chunk: `tasks = [send_to_user(u) for u in chunk]` followed by
`await asyncio.gather(*tasks, return_exceptions=True)`.  Every task catches
its own exception, so the gather always settles all tasks. -/
def runChunk (platform : Int → Option String) (content : Content) :
    List Int → Stats → Stats × List Event
  | [], s => (s, [])
  | uid :: rest, s =>
    let r := send_to_user_attempt platform content uid
    let rec2 :=
      runChunk platform content rest (updateStats platform content s uid)
    (rec2.1, r.1.map (fun call => Event.send call.kind call.uid) ++ rec2.2)

/-- The chunk loop `for i in range(0, len(user_ids), chunk_size)`: each
chunk's tasks are gathered, then `asyncio.sleep(throttle_delay * chunk_size)`
runs — after every chunk, including the last one. -/
def runChunksList (platform : Int → Option String) (content : Content) :
    List (List Int) → Stats → Stats × List Event
  | [], s => (s, [])
  | chunk :: rest, s =>
    let r1 := runChunk platform content chunk s
    let r2 := runChunksList platform content rest r1.1
    (r2.1, r1.2 ++ Event.sleepEvt :: r2.2)

/-- Fuel-indexed worker for `chunksOf`; the fuel is the list length, which
suffices because every step with a positive chunk size consumes at least one
element.  (`range(0, n, 0)` raises `ValueError` in Python, so only positive
chunk sizes are meaningful.) -/
def chunksOfAux {α : Type} : Nat → Nat → List α → List (List α)
  | 0, _, _ => []
  | _, _, [] => []
  | fuel + 1, csize, x :: xs =>
    (x :: xs).take csize :: chunksOfAux fuel csize ((x :: xs).drop csize)

/-- `user_ids[i:i + chunk_size]` for `i in range(0, len(user_ids),
chunk_size)`. -/
def chunksOf {α : Type} (csize : Nat) (l : List α) : List (List α) :=
  chunksOfAux l.length csize l

/-- Oracle for the platform calls made inside
`forward_message_with_entities`: the outcome of the single `target_bot`
send the taken branch performs (`.ok handle` = the sent message), and the
outcome of the network part of `get_file_from_message` (`bot.get_file` +
`download_file`). -/
structure RelayOracle where
  sendResult : Except String PyMessage
  fileResult : Except String Unit
deriving Repr

/-- `get_file_from_message` (sending.py lines 336-377): raises `ValueError`
when the message carries none of the supported media attributes, otherwise
performs the platform download, which may itself raise. -/
def get_file_from_message (o : RelayOracle) (m : PyMessage) :
    Except String Unit :=
  if pyTruthyList m.photo || pyTruthyOpt m.video || pyTruthyOpt m.document ||
      pyTruthyOpt m.voice || pyTruthyOpt m.audio || pyTruthyOpt m.video_note ||
      pyTruthyOpt m.sticker then
    o.fileResult
  else
    .error "ValueError"

/-- The body of the `try` of `forward_message_with_entities` (sending.py
lines 225-329): dispatch on the source message's attributes, with `.ok none`
for the unsupported-kind fall-through (`return None` after the warning).
In the media-with-caption branch, a message whose caption is truthy but
which is neither photo nor video nor document reaches `return sent_msg`
with `sent_msg` unbound, raising `UnboundLocalError`. -/
def forward_body (o : RelayOracle) (m : PyMessage) :
    Except String (Option PyMessage) := do
  if pyTruthyOpt m.text then
    let sent ← o.sendResult
    return some sent
  else if pyTruthyOpt m.caption then
    let _ ← get_file_from_message o m
    if pyTruthyList m.photo then
      let sent ← o.sendResult
      return some sent
    else if pyTruthyOpt m.video then
      let sent ← o.sendResult
      return some sent
    else if pyTruthyOpt m.document then
      let sent ← o.sendResult
      return some sent
    else
      throw "UnboundLocalError"
  else if pyTruthyList m.photo || pyTruthyOpt m.video ||
      pyTruthyOpt m.document then
    let _ ← get_file_from_message o m
    let sent ← o.sendResult
    return some sent
  else if pyTruthyOpt m.voice then
    let _ ← get_file_from_message o m
    let sent ← o.sendResult
    return some sent
  else if pyTruthyOpt m.video_note then
    let _ ← get_file_from_message o m
    let sent ← o.sendResult
    return some sent
  else
    return none

/-- `forward_message_with_entities`: the whole body sits inside
`try: ... except Exception: return None`, so every raised exception is
caught, logged and surfaced as an absent handle. -/
def forward_message_with_entities (o : RelayOracle) (m : PyMessage) :
    Option PyMessage :=
  match forward_body o m with
  | .ok r => r
  | .error _ => none

/-- Whether the relay path of `universal_broadcast` is taken and returns an
absent handle, making the run return early. -/
def relayAborted (ro : RelayOracle) (content : Content) (another_bot : Bool) :
    Bool :=
  match content with
  | .msg m =>
    if another_bot then (forward_message_with_entities ro m).isNone else false
  | .str _ => false

/-- The content the per-recipient dispatch actually sees: when the relay
path is taken and succeeds, `content = msg_id` replaces the content with the
message object returned by the relay. -/
def effectiveContent (ro : RelayOracle) (content : Content)
    (another_bot : Bool) : Content :=
  match content with
  | .msg m =>
    if another_bot then
      match forward_message_with_entities ro m with
      | some sent => .msg sent
      | none => .msg m
    else
      .msg m
  | .str s => .str s

/-- `universal_broadcast` (sending.py lines 44-205).  Program order:

1. `stats = {'total': len(user_ids), 'success': 0, 'failed': 0, 'errors': {}}`;
2. if `isinstance(content, types.Message) and another_bot`, invoke
   `forward_message_with_entities`; on an absent handle `return stats`
   immediately (note: `total` already holds `len(user_ids)`), otherwise
   replace `content` by the relayed message;
3. `async with semaphore:` — the block contains only the *definition* of the
   nested `send_to_user`, so the one permit is acquired and released before
   any send is issued;
4. the chunk loop issues the per-recipient tasks and sleeps after each chunk.

Returns the final statistics and the event trace in program order. -/
def universal_broadcast (platform : Int → Option String) (ro : RelayOracle)
    (content : Content) (user_ids : List Int) (another_bot : Bool)
    (chunk_size : Nat) : Stats × List Event :=
  let stats0 := initStats user_ids.length
  match content with
  | .msg m =>
    if another_bot then
      match forward_message_with_entities ro m with
      | none => (stats0, [.relayInvoke])
      | some sent =>
        let r := runChunksList platform (.msg sent)
          (chunksOf chunk_size user_ids) stats0
        (r.1, .relayInvoke :: .semAcquire :: .semRelease :: r.2)
    else
      let r := runChunksList platform (.msg m) (chunksOf chunk_size user_ids)
        stats0
      (r.1, .semAcquire :: .semRelease :: r.2)
  | .str s =>
    let r := runChunksList platform (.str s) (chunksOf chunk_size user_ids)
      stats0
    (r.1, .semAcquire :: .semRelease :: r.2)

/-- Number of semaphore permits held at the moment of each platform send in
a trace, scanning in program order from `c` held permits. -/
def sendPermitCounts : List Event → Int → List Int
  | [], _ => []
  | .semAcquire :: rest, c => sendPermitCounts rest (c + 1)
  | .semRelease :: rest, c => sendPermitCounts rest (c - 1)
  | .send _ _ :: rest, c => c :: sendPermitCounts rest c
  | .relayInvoke :: rest, c => sendPermitCounts rest c
  | .sleepEvt :: rest, c => sendPermitCounts rest c

/-! ## The link validator of the composer workflow

`validate_telegram_url` (sending_handlers.py lines 133-185) parses the
candidate link with `urllib.parse.urlparse`.  The fragment of `urlparse`
that the validator depends on is embedded below: CPython first removes the
unsafe bytes tab/CR/LF, then splits off a scheme (the text before the first
`:` when it starts with an ASCII letter and consists of scheme characters,
lowercased), then — when the remainder starts with `//` — a network
location running up to the next `/`, `?` or `#`, then the fragment after
the first `#` and the query after the first `?`. -/

/-- Characters allowed in a URL scheme (`scheme_chars` in CPython). -/
def isSchemeChar (c : Char) : Bool :=
  c.isAlphanum || c = '+' || c = '-' || c = '.'

/-- Scheme splitting step of `urlsplit`: returns the lowercased scheme and
the rest of the URL, or an empty scheme and the whole URL unchanged. -/
def schemeSplit (url : List Char) : String × List Char :=
  match url.findIdx? (fun c => c = ':') with
  | none => ("", url)
  | some i =>
    if i = 0 then ("", url)
    else
      let pre := url.take i
      match pre with
      | [] => ("", url)
      | c0 :: _ =>
        if c0.isAlpha && pre.all isSchemeChar then
          (String.mk (pre.map Char.toLower), url.drop (i + 1))
        else
          ("", url)

/-- Netloc splitting step of `urlsplit`: consumed only when the remainder
starts with `//`. -/
def netlocSplit (rest : List Char) : List Char × List Char :=
  match rest with
  | '/' :: '/' :: r =>
    let nl := r.takeWhile (fun c => c ≠ '/' && c ≠ '?' && c ≠ '#')
    (nl, r.drop nl.length)
  | _ => ([], rest)

/-- Split a character list at the first occurrence of `ch`, dropping it. -/
def splitFirst (l : List Char) (ch : Char) : List Char × List Char :=
  match l.findIdx? (fun c => c = ch) with
  | none => (l, [])
  | some i => (l.take i, l.drop (i + 1))

/-- Result of `urllib.parse.urlparse` restricted to the components the
validator reads. -/
structure ParseResult where
  scheme : String
  netloc : String
  path : String
deriving DecidableEq, Repr

/-- The fragment of `urllib.parse.urlparse` the validator depends on. -/
def pyUrlparse (url : String) : ParseResult :=
  let cs := url.toList.filter (fun c => c ≠ '\t' && c ≠ '\r' && c ≠ '\n')
  let sp := schemeSplit cs
  let np := netlocSplit sp.2
  let fp := splitFirst np.2 '#'
  let qp := splitFirst fp.1 '?'
  { scheme := sp.1, netloc := String.mk np.1, path := String.mk qp.1 }

/-- Whether `pat` occurs as a substring (Python `in` on `str`). -/
def strContainsSub (pat s : String) : Bool :=
  (List.range (s.toList.length + 1)).any
    (fun i => pat.toList.isPrefixOf (s.toList.drop i))

/-- The character class of the final check
`re.search(r'[\s<>\[\]{}]', url)`: ASCII whitespace, angle brackets,
square brackets and curly braces. -/
def isForbiddenChar (c : Char) : Bool :=
  c = ' ' || c = '\t' || c = '\n' || c = '\r' ||
  c = Char.ofNat 11 || c = Char.ofNat 12 ||
  c = '<' || c = '>' || c = '[' || c = ']' ||
  c = Char.ofNat 123 || c = Char.ofNat 125

/-- Whether the forbidden-character regex finds a match in the raw URL. -/
def containsForbidden (url : String) : Bool :=
  url.toList.any isForbiddenChar

/-- The allow-list of `tg://` actions. -/
def allowed_actions : List String :=
  ["resolve", "login", "join", "addstickers", "share", "msg",
   "confirmphone", "socks", "proxy", "privatepost", "bg", "setlanguage"]

/-- The tail of `validate_telegram_url` reached when no scheme-specific
check returned early: the forbidden-character regex on the raw URL,
followed by acceptance. -/
def finishChecks (url : String) : Bool × Option String :=
  if containsForbidden url then
    (false, some "forbidden characters")
  else
    (true, none)

/-- `validate_telegram_url` (sending_handlers.py lines 133-185).  The
returned `Option String` carries a short tag for the rejection message
(the source messages are Russian f-strings).  Control flow mirrors the
source: length gate, scheme allow-list, then the scheme-specific checks,
each of which may return early; every path that falls through them reaches
the forbidden-character regex on the raw URL and then acceptance
(`finishChecks`). -/
def validate_telegram_url (url : String) : Bool × Option String :=
  if url.length < 5 || url.length > 2048 then
    (false, some "length out of range")
  else
    let parsed := pyUrlparse url
    if !(parsed.scheme = "http" || parsed.scheme = "https" ||
        parsed.scheme = "tg" || parsed.scheme = "tg.me") then
      (false, some "scheme not allowed")
    else if parsed.scheme = "http" || parsed.scheme = "https" then
      if parsed.netloc = "" then
        (false, some "missing domain")
      else if (strContainsSub "telegram.me" parsed.netloc ||
          strContainsSub "t.me" parsed.netloc) && parsed.scheme = "tg" then
        (false, some "use tg scheme for telegram links")
      else
        finishChecks url
    else if parsed.scheme = "tg" then
      if parsed.path = "" then
        (false, some "malformed tg link")
      else
        let action := String.mk
          ((parsed.path.toList.dropWhile (fun c => c = '/')).takeWhile
            (fun c => c ≠ '?'))
        if !(allowed_actions.contains action) then
          (false, some ("unsupported tg action: " ++ action))
        else
          finishChecks url
    else
      finishChecks url

/-! ## The button-label validator and its handler -/

/-- Python `str.strip()` emptiness test: `not text.strip()` is true exactly
when every character is whitespace. -/
def pyBlank (text : String) : Bool :=
  text.toList.all (fun c =>
    c = ' ' || c = '\t' || c = '\n' || c = '\r' ||
    c = Char.ofNat 11 || c = Char.ofNat 12)

/-- `is_valid_button_text` (sending_handlers.py lines 206-217) for the
default `button_type = "normal"`: the text must be a non-blank string of at
most 64 characters containing no newline. -/
def is_valid_button_text (text : String) : Bool :=
  if pyBlank text then
    false
  else
    decide (text.length ≤ 64) && !(text.toList.contains '\n')

/-- Observable outcome of the `handle_button_text` handler. -/
structure ButtonHandlerResult where
  invalidReprompt : Bool
  stateSet : Option String
  previewSent : Bool
  previewLabel : Option String
deriving DecidableEq, Repr

/-- `handle_button_text` (sending_handlers.py lines 200-259), modelled by
its observable control flow.  When `message.text` is absent the handler
replies and returns.  When the label fails `is_valid_button_text` the
handler sends the re-prompt **but does not return** (unlike the sibling
`handle_button_link`, which returns after its re-prompt), so it still sets
the `confirmation` state, builds the keyboard with the invalid label and
invokes `universal_broadcast` to send the preview carrying that label. -/
def handle_button_text (text : Option String) : ButtonHandlerResult :=
  match text with
  | none =>
    { invalidReprompt := false, stateSet := none, previewSent := false,
      previewLabel := none }
  | some button_text =>
    let bad := !(is_valid_button_text button_text)
    { invalidReprompt := bad, stateSet := some "confirmation",
      previewSent := true, previewLabel := some button_text }

/-! ## The lead-confirmation persistence boundary -/

/-- Runtime Python values exchanged between `save_offer_confirmation` and
its caller, rich enough to express tuple unpacking. -/
inductive PyValue where
  | pyInt (n : Int)
  | pyBool (b : Bool)
  | pyPair (a b : PyValue)
deriving DecidableEq, Repr

/-- Python truthiness of a `PyValue`. -/
def pyTruthyVal : PyValue → Bool
  | .pyInt n => n ≠ 0
  | .pyBool b => b
  | .pyPair _ _ => true

/-- `a, b = v`: unpacking a non-iterable raises `TypeError`. -/
def pyUnpack2 : PyValue → Except String (PyValue × PyValue)
  | .pyPair a b => .ok (a, b)
  | .pyInt _ => .error "TypeError: cannot unpack non-iterable int object"
  | .pyBool _ => .error "TypeError: cannot unpack non-iterable bool object"

/-- `save_offer_confirmation` (queries.py lines 40-65): after the session
commit succeeds it returns `confirmation.confirmation_id` — a bare id, not
a pair.  The database effect is abstracted; `confirmation_id` is the id the
store assigned. -/
def save_offer_confirmation (confirmation_id : Int) : PyValue :=
  .pyInt confirmation_id

/-- HTTP outcome of the `/api/offer-confirmation` endpoint. -/
inductive ApiResponse where
  | success (confirmation_id : PyValue) (message : String)
  | httpError (status : Nat) (detail : String)
deriving DecidableEq, Repr

/-- Which downstream notification adapters were invoked for the event. -/
structure FanOut where
  sheetsInvoked : Bool
  emailInvoked : Bool
  webhookInvoked : Bool
deriving DecidableEq, Repr

/-- The persistence-and-fan-out tail of `confirm_offer` (api_server.py lines
176-259), starting from the value returned by `save_offer_confirmation`:

* `confirmation_id, is_duplicate = await save_offer_confirmation(...)` —
  unpacking; a raised `TypeError` is caught by the surrounding
  `except Exception` and becomes an HTTP 500;
* a truthy `is_duplicate` returns success immediately, skipping all
  integrations;
* otherwise the three integrations run, each inside its own `try/except`
  whose failures are logged and swallowed, so their outcomes (the three
  `Except` parameters) never affect the response. -/
def confirm_offer (saveRet : PyValue) (_sheetsResult : Except String Bool)
    (_emailResult : Except String Unit) (_webhookResult : Except String Unit) :
    ApiResponse × FanOut :=
  match pyUnpack2 saveRet with
  | .error e =>
    (.httpError 500 ("Internal server error: " ++ e),
     { sheetsInvoked := false, emailInvoked := false, webhookInvoked := false })
  | .ok (cid, isDup) =>
    if pyTruthyVal isDup then
      (.success cid "Duplicate request ignored",
       { sheetsInvoked := false, emailInvoked := false,
         webhookInvoked := false })
    else
      (.success cid "Offer confirmation saved successfully",
       { sheetsInvoked := true, emailInvoked := true, webhookInvoked := true })

/-! ## Concrete fixtures used by witnesses and counterexamples -/

/-- Platform oracle on which every send succeeds. -/
def pfOk : Int → Option String := fun _ => none

/-- A plain text broadcast message. -/
def mText : PyMessage := { emptyMsg with text := some "hello" }

/-- A message carrying only a document: none of the five kinds the
per-recipient dispatch recognises. -/
def mDoc : PyMessage := { emptyMsg with document := some "doc-file-id" }

/-- Relay oracle whose platform send raises. -/
def roFail : RelayOracle :=
  { sendResult := .error "TelegramBadRequest", fileResult := .ok () }

/-- Relay oracle whose platform calls succeed, handing back `mText`. -/
def roOk : RelayOracle :=
  { sendResult := .ok mText, fileResult := .ok () }

/-- A 250-recipient list, for the chunking claims. -/
def uids250 : List Int := (List.range 250).map (fun n => Int.ofNat n)

/-- Whether a `types.Message` matches none of the five content kinds the
per-recipient dispatch recognises (not a photo, video, voice, round
video-note or text message). -/
def unrecognizedKind (m : PyMessage) : Bool :=
  !pyTruthyList m.photo && !pyTruthyOpt m.video && !pyTruthyOpt m.voice &&
  !pyTruthyOpt m.video_note && !pyTruthyOpt m.text

/-- Whether a broadcast invocation takes the relay path: the content is a
message object and `another_bot` is set. -/
def relayRequested : Content → Bool → Bool
  | .msg _, ab => ab
  | .str _, _ => false

/-- The final statistics object a broadcast run reports to its caller. -/
def finalStats (platform : Int → Option String) (ro : RelayOracle)
    (content : Content) (user_ids : List Int) (another_bot : Bool)
    (chunk_size : Nat) : Stats :=
  (universal_broadcast platform ro content user_ids another_bot chunk_size).1

/-! ## Helper lemmas -/

theorem updateStats_total (pf : Int → Option String) (c : Content) (s : Stats)
    (uid : Int) : (updateStats pf c s uid).total = s.total := by
  unfold updateStats
  split <;> rfl

theorem updateStats_sum (pf : Int → Option String) (c : Content) (s : Stats)
    (uid : Int) :
    (updateStats pf c s uid).success + (updateStats pf c s uid).failed =
      s.success + s.failed + 1 := by
  unfold updateStats
  split <;> simp <;> omega

theorem bumpError_sum (name : String) :
    ∀ errors : List (String × Nat), errSum (bumpError errors name) =
      errSum errors + 1 := by
  intro errors
  induction errors with
  | nil => simp [bumpError, errSum]
  | cons kv rest ih =>
    obtain ⟨k, v⟩ := kv
    by_cases hk : k = name
    · simp [bumpError, hk, errSum]
      omega
    · simp [bumpError, hk, errSum] at ih ⊢
      omega

theorem updateStats_errInv (pf : Int → Option String) (c : Content) (s : Stats)
    (uid : Int) (h : errSum s.errors = s.failed) :
    errSum (updateStats pf c s uid).errors = (updateStats pf c s uid).failed := by
  unfold updateStats
  split
  · simpa using h
  · simpa [bumpError_sum] using h

theorem statsAfter_total (pf : Int → Option String) (c : Content) :
    ∀ (l : List Int) (s : Stats), (statsAfter pf c l s).total = s.total := by
  intro l
  induction l with
  | nil => intro s; rfl
  | cons uid rest ih =>
    intro s
    rw [statsAfter, ih, updateStats_total]

theorem statsAfter_sum (pf : Int → Option String) (c : Content) :
    ∀ (l : List Int) (s : Stats),
      (statsAfter pf c l s).success + (statsAfter pf c l s).failed =
        s.success + s.failed + l.length := by
  intro l
  induction l with
  | nil => intro s; simp [statsAfter]
  | cons uid rest ih =>
    intro s
    rw [statsAfter, ih, updateStats_sum]
    simp
    omega

theorem statsAfter_errInv (pf : Int → Option String) (c : Content) :
    ∀ (l : List Int) (s : Stats), errSum s.errors = s.failed →
      errSum (statsAfter pf c l s).errors = (statsAfter pf c l s).failed := by
  intro l
  induction l with
  | nil => intro s h; exact h
  | cons uid rest ih =>
    intro s h
    rw [statsAfter]
    exact ih _ (updateStats_errInv pf c s uid h)

theorem statsAfter_append (pf : Int → Option String) (c : Content) :
    ∀ (l1 l2 : List Int) (s : Stats),
      statsAfter pf c (l1 ++ l2) s = statsAfter pf c l2 (statsAfter pf c l1 s) := by
  intro l1
  induction l1 with
  | nil => intro l2 s; rfl
  | cons uid rest ih =>
    intro l2 s
    rw [List.cons_append, statsAfter, statsAfter, ih]

theorem runChunk_fst (pf : Int → Option String) (c : Content) :
    ∀ (l : List Int) (s : Stats), (runChunk pf c l s).1 = statsAfter pf c l s := by
  intro l
  induction l with
  | nil => intro s; rfl
  | cons uid rest ih =>
    intro s
    rw [runChunk, statsAfter]
    exact ih _

theorem runChunksList_fst (pf : Int → Option String) (c : Content) :
    ∀ (cl : List (List Int)) (s : Stats),
      (runChunksList pf c cl s).1 = statsAfter pf c cl.flatten s := by
  intro cl
  induction cl with
  | nil => intro s; rfl
  | cons chunk rest ih =>
    intro s
    rw [runChunksList, List.flatten_cons, statsAfter_append]
    simp only []
    rw [ih, runChunk_fst]

theorem chunksOfAux_join {α : Type} (csize : Nat) (hcs : 0 < csize) :
    ∀ (fuel : Nat) (l : List α), l.length ≤ fuel →
      (chunksOfAux fuel csize l).flatten = l := by
  intro fuel
  induction fuel with
  | zero =>
    intro l hl
    have : l = [] := List.eq_nil_of_length_eq_zero (Nat.le_zero.mp hl)
    subst this
    rfl
  | succ n ih =>
    intro l hl
    match l with
    | [] => rfl
    | x :: xs =>
      rw [chunksOfAux, List.flatten_cons]
      have hlen : ((x :: xs).drop csize).length ≤ n := by
        rw [List.length_drop]
        simp only [List.length_cons] at hl ⊢
        omega
      rw [ih _ hlen, List.take_append_drop]

theorem chunksOf_join {α : Type} (csize : Nat) (hcs : 0 < csize) (l : List α) :
    (chunksOf csize l).flatten = l :=
  chunksOfAux_join csize hcs l.length l (Nat.le_refl _)

theorem universal_broadcast_fst (pf : Int → Option String) (ro : RelayOracle)
    (content : Content) (uids : List Int) (ab : Bool) (csize : Nat)
    (hcs : 0 < csize) (hrel : relayAborted ro content ab = false) :
    finalStats pf ro content uids ab csize =
      statsAfter pf (effectiveContent ro content ab) uids
        (initStats uids.length) := by
  match content, ab with
  | .str s, ab =>
    rw [finalStats, universal_broadcast, effectiveContent]
    simp only []
    rw [runChunksList_fst, chunksOf_join _ hcs]
  | .msg m, false =>
    rw [finalStats, universal_broadcast, effectiveContent]
    simp only [if_neg Bool.false_ne_true, Bool.false_eq_true, if_false]
    rw [runChunksList_fst, chunksOf_join _ hcs]
  | .msg m, true =>
    rw [relayAborted] at hrel
    simp only [if_true] at hrel
    cases hf : forward_message_with_entities ro m with
    | none => rw [hf] at hrel; simp at hrel
    | some sent =>
      rw [finalStats, universal_broadcast, effectiveContent, hf]
      simp only [if_true]
      rw [runChunksList_fst, chunksOf_join _ hcs]

theorem runChunk_sleepCount (pf : Int → Option String) (c : Content) :
    ∀ (l : List Int) (s : Stats),
      (runChunk pf c l s).2.countP isSleep = 0 := by
  intro l
  induction l with
  | nil => intro s; rfl
  | cons uid rest ih =>
    intro s
    simp only [runChunk]
    rw [List.countP_append, ih, List.countP_map]
    simp [Function.comp_def, isSleep]

theorem runChunksList_sleepCount (pf : Int → Option String) (c : Content) :
    ∀ (cl : List (List Int)) (s : Stats),
      (runChunksList pf c cl s).2.countP isSleep = cl.length := by
  intro cl
  induction cl with
  | nil => intro s; rfl
  | cons chunk rest ih =>
    intro s
    simp only [runChunksList]
    rw [List.countP_append, runChunk_sleepCount, List.countP_cons]
    simp [isSleep, ih]

theorem runChunk_events_nil (pf : Int → Option String) (c : Content)
    (h : ∀ uid : Int, (send_to_user_attempt pf c uid).1 = []) :
    ∀ (l : List Int) (s : Stats), (runChunk pf c l s).2 = [] := by
  intro l
  induction l with
  | nil => intro s; rfl
  | cons uid rest ih =>
    intro s
    simp only [runChunk]
    rw [h uid, ih]
    rfl

theorem runChunksList_sendCount_zero (pf : Int → Option String) (c : Content)
    (h : ∀ uid : Int, (send_to_user_attempt pf c uid).1 = []) :
    ∀ (cl : List (List Int)) (s : Stats),
      (runChunksList pf c cl s).2.countP isSend = 0 := by
  intro cl
  induction cl with
  | nil => intro s; rfl
  | cons chunk rest ih =>
    intro s
    simp only [runChunksList]
    rw [List.countP_append, runChunk_events_nil pf c h, List.countP_cons]
    simp [isSend, ih]

theorem statsAfter_allSuccess (pf : Int → Option String) (c : Content)
    (h : ∀ uid : Int, (send_to_user_attempt pf c uid).2 = none) :
    ∀ (l : List Int) (s : Stats),
      statsAfter pf c l s = { s with success := s.success + l.length } := by
  intro l
  induction l with
  | nil => intro s; simp [statsAfter]
  | cons uid rest ih =>
    intro s
    rw [statsAfter]
    have hu : updateStats pf c s uid = { s with success := s.success + 1 } := by
      unfold updateStats
      rw [h uid]
    rw [hu, ih]
    ext <;> simp <;> omega

theorem attempt_unrecognized (pf : Int → Option String) (m : PyMessage)
    (uid : Int) (hm : unrecognizedKind m = true) :
    send_to_user_attempt pf (.msg m) uid = ([], none) := by
  unfold unrecognizedKind at hm
  simp only [Bool.and_eq_true, Bool.not_eq_true'] at hm
  obtain ⟨⟨⟨⟨h1, h2⟩, h3⟩, h4⟩, h5⟩ := hm
  simp [send_to_user_attempt, h1, h2, h3, h4, h5]

theorem statsAfter_strContent (pf : Int → Option String) (sstr : String) :
    ∀ (l : List Int) (t su f j : Nat),
      statsAfter pf (.str sstr) l
        ⟨t, su, f, [("AttributeError", j + 1)]⟩ =
        ⟨t, su, f + l.length, [("AttributeError", j + 1 + l.length)]⟩ := by
  intro l
  induction l with
  | nil => intro t su f j; simp [statsAfter]
  | cons uid rest ih =>
    intro t su f j
    rw [statsAfter]
    have hu : updateStats pf (.str sstr)
        ⟨t, su, f, [("AttributeError", j + 1)]⟩ uid =
        ⟨t, su, f + 1, [("AttributeError", j + 2)]⟩ := by
      simp [updateStats, send_to_user_attempt, bumpError]
    rw [hu]
    have := ih t su (f + 1) (j + 1)
    rw [this]
    simp only [Stats.mk.injEq, List.cons.injEq, Prod.mk.injEq, List.length_cons,
      true_and, and_true]
    omega

theorem validate_true_no_forbidden (url : String)
    (h : (validate_telegram_url url).1 = true) :
    containsForbidden url = false := by
  have hfin : ∀ u : String, ((finishChecks u).1 = true) →
      containsForbidden u = false := by
    intro u hu
    unfold finishChecks at hu
    split at hu
    · simp at hu
    · rename_i hcond
      exact Bool.not_eq_true _ ▸ (by simpa using hcond)
  simp only [validate_telegram_url] at h
  split at h
  · simp at h
  · split at h
    · simp at h
    · split at h
      · split at h
        · simp at h
        · split at h
          · simp at h
          · exact hfin url h
      · split at h
        · split at h
          · simp at h
          · split at h
            · simp at h
            · exact hfin url h
        · exact hfin url h

/-! ## Claim theorems -/

/-- C1: for every broadcast run over a recipient list of length `n ≥ 0`
that reaches the per-recipient phase and runs it to completion (positive
chunk size; the relay, when used, did not abort), the returned statistics
satisfy `success + failed = n = total` and the values of the `errors`
mapping sum to `failed`; moreover, after any number `k` of settled
per-recipient tasks the intermediate statistics satisfy
`success + failed ≤ total` — each recipient produces exactly one counted
outcome. -/
theorem broadcast_stats_invariant (pf : Int → Option String)
    (ro : RelayOracle) (content : Content) (uids : List Int) (ab : Bool)
    (csize : Nat) (hcs : 0 < csize)
    (hrel : relayAborted ro content ab = false) :
    (finalStats pf ro content uids ab csize).total = uids.length ∧
    (finalStats pf ro content uids ab csize).success +
      (finalStats pf ro content uids ab csize).failed = uids.length ∧
    errSum (finalStats pf ro content uids ab csize).errors =
      (finalStats pf ro content uids ab csize).failed ∧
    ∀ k : Nat,
      (statsAfter pf (effectiveContent ro content ab) (uids.take k)
        (initStats uids.length)).success +
      (statsAfter pf (effectiveContent ro content ab) (uids.take k)
        (initStats uids.length)).failed ≤
      (statsAfter pf (effectiveContent ro content ab) (uids.take k)
        (initStats uids.length)).total := by
  have hfs := universal_broadcast_fst pf ro content uids ab csize hcs hrel
  refine ⟨?_, ?_, ?_, ?_⟩
  · rw [hfs, statsAfter_total]
    rfl
  · rw [hfs, statsAfter_sum]
    simp [initStats]
  · rw [hfs]
    exact statsAfter_errInv _ _ _ _ (by simp [initStats, errSum])
  · intro k
    rw [statsAfter_sum, statsAfter_total]
    simp only [initStats, List.length_take]
    omega

/-- Witness for `broadcast_stats_invariant`: a text broadcast to three
recipients with chunk size 2, where every platform send succeeds. -/
theorem broadcast_stats_invariant_witness :
    (0 < 2 ∧ relayAborted roFail (Content.msg mText) false = false) ∧
    ((finalStats pfOk roFail (Content.msg mText) [1, 2, 3] false 2).total = 3 ∧
     (finalStats pfOk roFail (Content.msg mText) [1, 2, 3] false 2).success +
       (finalStats pfOk roFail (Content.msg mText) [1, 2, 3] false 2).failed =
         3 ∧
     errSum (finalStats pfOk roFail (Content.msg mText) [1, 2, 3] false
       2).errors =
       (finalStats pfOk roFail (Content.msg mText) [1, 2, 3] false 2).failed ∧
     ∀ k : Nat,
       (statsAfter pfOk (effectiveContent roFail (Content.msg mText) false)
         (([1, 2, 3] : List Int).take k) (initStats 3)).success +
       (statsAfter pfOk (effectiveContent roFail (Content.msg mText) false)
         (([1, 2, 3] : List Int).take k) (initStats 3)).failed ≤
       (statsAfter pfOk (effectiveContent roFail (Content.msg mText) false)
         (([1, 2, 3] : List Int).take k) (initStats 3)).total) :=
  ⟨⟨by decide, by rfl⟩,
   broadcast_stats_invariant pfOk roFail (Content.msg mText) [1, 2, 3] false 2
     (by decide) (by rfl)⟩

/-- C10: a broadcast invoked with a bare string as the content item never
delivers a message: the attribute probe `content.photo` raises
`AttributeError` before the dedicated `isinstance(content, str)` branch can
be reached, so every recipient is counted as failed with error class
`"AttributeError"` and zero platform sends are issued. -/
theorem string_content_all_attribute_error (pf : Int → Option String)
    (ro : RelayOracle) (s : String) (uids : List Int) (ab : Bool)
    (csize : Nat) (hcs : 0 < csize) (hne : uids ≠ []) :
    finalStats pf ro (.str s) uids ab csize =
      { total := uids.length, success := 0, failed := uids.length,
        errors := [("AttributeError", uids.length)] } ∧
    (universal_broadcast pf ro (.str s) uids ab csize).2.countP isSend = 0 := by
  constructor
  · have hfs := universal_broadcast_fst pf ro (.str s) uids ab csize hcs rfl
    rw [hfs]
    have hec : effectiveContent ro (.str s) ab = .str s := rfl
    rw [hec]
    match uids, hne with
    | u :: rest, _ =>
      rw [statsAfter]
      have hu : updateStats pf (.str s) (initStats (u :: rest).length) u =
          ⟨(u :: rest).length, 0, 1, [("AttributeError", 1)]⟩ := by
        simp [updateStats, send_to_user_attempt, initStats, bumpError]
      rw [hu]
      have h1 : (1 : Nat) = 0 + 1 := rfl
      rw [show (⟨(u :: rest).length, 0, 1, [("AttributeError", 1)]⟩ : Stats) =
          ⟨(u :: rest).length, 0, 1, [("AttributeError", 0 + 1)]⟩ from rfl]
      rw [statsAfter_strContent]
      simp only [Stats.mk.injEq, List.cons.injEq, Prod.mk.injEq,
        List.length_cons, true_and, and_true]
      omega
  · simp only [universal_broadcast]
    rw [List.countP_cons, List.countP_cons,
      runChunksList_sendCount_zero pf (.str s) (fun _ => rfl)]
    rfl

/-- Witness for `string_content_all_attribute_error`: a bare-string
broadcast to two recipients. -/
theorem string_content_all_attribute_error_witness :
    (0 < 100 ∧ ([4, 5] : List Int) ≠ []) ∧
    (finalStats pfOk roFail (Content.str "hi") [4, 5] false 100 =
      { total := 2, success := 0, failed := 2,
        errors := [("AttributeError", 2)] } ∧
     (universal_broadcast pfOk roFail (Content.str "hi") [4, 5] false
       100).2.countP isSend = 0) :=
  ⟨⟨by decide, by decide⟩,
   string_content_all_attribute_error pfOk roFail "hi" [4, 5] false 100
     (by decide) (by decide)⟩

/-- C2 counterexample: broadcasting a message that matches none of the five
recognised kinds (here: a document-only message) to one recipient issues no
platform send — but the recipient IS counted: the `stats['success'] += 1`
at the end of `send_to_user` sits after the whole `if/elif` chain, not
inside it, so it also fires when no branch matched.  The claim's "neither
the success counter nor the failed counter is incremented" is false. -/
theorem unrecognized_kind_counted_success_cex :
    (finalStats pfOk roFail (Content.msg mDoc) [1] false 100).success = 1 ∧
    (finalStats pfOk roFail (Content.msg mDoc) [1] false 100).failed = 0 ∧
    (universal_broadcast pfOk roFail (Content.msg mDoc) [1] false
      100).2.countP isSend = 0 :=
  ⟨rfl, rfl, rfl⟩

/-- C2 amended: for every recipient of a broadcast whose content is a
message of no recognised kind, no send attempt is made, and the recipient
is counted as a success (the unconditional post-chain increment), never as
a failure. -/
theorem unrecognized_kind_amended (pf : Int → Option String)
    (ro : RelayOracle) (m : PyMessage) (uids : List Int) (csize : Nat)
    (hcs : 0 < csize) (hm : unrecognizedKind m = true) :
    finalStats pf ro (.msg m) uids false csize =
      { total := uids.length, success := uids.length, failed := 0,
        errors := [] } ∧
    (universal_broadcast pf ro (.msg m) uids false csize).2.countP isSend =
      0 := by
  have hattempt : ∀ uid : Int,
      send_to_user_attempt pf (.msg m) uid = ([], none) := fun uid =>
    attempt_unrecognized pf m uid hm
  constructor
  · have hfs := universal_broadcast_fst pf ro (.msg m) uids false csize hcs
      rfl
    rw [hfs]
    have hec : effectiveContent ro (.msg m) false = .msg m := rfl
    rw [hec]
    rw [statsAfter_allSuccess pf (.msg m) (fun uid => by rw [hattempt uid])]
    simp [initStats]
  · simp only [universal_broadcast, Bool.false_eq_true, if_false]
    rw [List.countP_cons, List.countP_cons,
      runChunksList_sendCount_zero pf (.msg m) (fun uid => by rw [hattempt uid])]
    rfl

/-- Witness for `unrecognized_kind_amended`: a document-only message
broadcast to two recipients. -/
theorem unrecognized_kind_amended_witness :
    (0 < 100 ∧ unrecognizedKind mDoc = true) ∧
    (finalStats pfOk roFail (Content.msg mDoc) [8, 9] false 100 =
      { total := 2, success := 2, failed := 0, errors := [] } ∧
     (universal_broadcast pfOk roFail (Content.msg mDoc) [8, 9] false
       100).2.countP isSend = 0) :=
  ⟨⟨by decide, by decide⟩,
   unrecognized_kind_amended pfOk roFail mDoc [8, 9] 100 (by decide)
     (by decide)⟩

/-- C3 counterexample: a relayed broadcast to one recipient whose relay
send raises returns statistics with `total = 1`, not the claimed all-zero
object `{total: 0, ...}` — `stats['total']` is set to `len(user_ids)`
before the relay check, and the early `return stats` keeps it. -/
theorem relay_absent_total_cex :
    (finalStats pfOk roFail (Content.msg mText) [7] true 100).total = 1 ∧
    (finalStats pfOk roFail (Content.msg mText) [7] true 100).success = 0 ∧
    (finalStats pfOk roFail (Content.msg mText) [7] true 100).failed = 0 ∧
    (finalStats pfOk roFail (Content.msg mText) [7] true 100).errors = [] ∧
    (universal_broadcast pfOk roFail (Content.msg mText) [7] true
      100).2.countP isSend = 0 :=
  ⟨rfl, rfl, rfl, rfl, rfl⟩

/-- C3 amended: when the relay is used and returns an absent handle, the
broadcast aborts before any per-recipient send is attempted and returns
`{total: n, success: 0, failed: 0, errors: {}}` — the zero counters of the
claim, but with `total` equal to the recipient-list length rather than 0;
and any error raised inside the relay body is caught and surfaced as an
absent handle, never propagated. -/
theorem relay_absent_amended :
    (∀ (pf : Int → Option String) (ro : RelayOracle) (m : PyMessage)
        (uids : List Int) (csize : Nat),
      forward_message_with_entities ro m = none →
      universal_broadcast pf ro (.msg m) uids true csize =
        ({ total := uids.length, success := 0, failed := 0, errors := [] },
          [Event.relayInvoke])) ∧
    (∀ (ro : RelayOracle) (m : PyMessage) (e : String),
      forward_body ro m = Except.error e →
      forward_message_with_entities ro m = none) := by
  constructor
  · intro pf ro m uids csize h
    simp only [universal_broadcast, h, if_true]
    rfl
  · intro ro m e h
    rw [forward_message_with_entities, h]

/-- Witness for `relay_absent_amended`: a relayed text broadcast whose
relay send raises `TelegramBadRequest`, and the caught-error conjunct at
that same oracle. -/
theorem relay_absent_amended_witness :
    (universal_broadcast pfOk roFail (Content.msg mText) [7] true 100 =
      ({ total := 1, success := 0, failed := 0, errors := [] },
        [Event.relayInvoke])) ∧
    forward_message_with_entities roFail mText = none :=
  ⟨relay_absent_amended.1 pfOk roFail mText [7] 100 (by rfl),
   relay_absent_amended.2 roFail mText "TelegramBadRequest" (by rfl)⟩

/-- C4 (code bug): the claim — and the comment above the module-level
semaphore — says every platform send must hold one of the 29 permits, but
the `async with semaphore:` block of `universal_broadcast` contains only
the *definition* of the nested `send_to_user`, so the single permit is
acquired and released before the chunk loop runs and every send executes
holding zero permits: in the trace of a three-recipient text broadcast all
three sends happen at permit count 0 (after the release). -/
theorem send_without_permit :
    sendPermitCounts
      ((universal_broadcast pfOk roFail (Content.msg mText) [1, 2, 3] false
        100).2) 0 = [0, 0, 0] ∧
    ((universal_broadcast pfOk roFail (Content.msg mText) [1, 2, 3] false
      100).2.countP isSend) = 3 :=
  ⟨rfl, rfl⟩

/-- C5 counterexample: for `chunk_size = 100` over 250 recipients, the
`asyncio.sleep(throttle_delay * chunk_size)` statement sits inside the
chunk loop body, so it is invoked once per chunk — three times, not the
"exactly twice" of the claim. -/
theorem sleep_count_cex :
    ((universal_broadcast pfOk roFail (Content.msg mText) uids250 false
      100).2.countP isSleep) = 3 := by
  simp only [universal_broadcast, Bool.false_eq_true, if_false]
  rw [List.countP_cons, List.countP_cons, runChunksList_sleepCount]
  rfl

/-- C5 amended: for `chunk_size = 100` and `n = 250`, exactly 3 chunks of
sizes 100, 100, 50 are processed strictly sequentially, each — including
the final one — followed by one invocation of
`asyncio.sleep(throttle_delay * chunk_size)`, so the sleep runs exactly
three times; the trace is the three chunks' sends in order, each chunk
terminated by its sleep. -/
theorem chunking_amended :
    ((chunksOf 100 uids250).map List.length = [100, 100, 50]) ∧
    ((universal_broadcast pfOk roFail (Content.msg mText) uids250 false
      100).2.countP isSleep = 3) ∧
    ((universal_broadcast pfOk roFail (Content.msg mText) uids250 false
      100).2 =
      Event.semAcquire :: Event.semRelease ::
        ((uids250.take 100).map (fun u => Event.send SendKind.textMsg u) ++
          Event.sleepEvt ::
            (((uids250.drop 100).take 100).map
              (fun u => Event.send SendKind.textMsg u) ++
              Event.sleepEvt ::
                ((uids250.drop 200).map
                  (fun u => Event.send SendKind.textMsg u) ++
                  [Event.sleepEvt])))) := by
  refine ⟨by rfl, ?_, by rfl⟩
  simp only [universal_broadcast, Bool.false_eq_true, if_false]
  rw [List.countP_cons, List.countP_cons, runChunksList_sleepCount]
  rfl

/-- C6 counterexample: a broadcast over an empty recipient list with a
message content and `another_bot = True` still invokes the relay —
`forward_message_with_entities` runs before the empty chunk loop is ever
reached, contradicting the claim's "the Message Relay is never invoked
regardless of whether relaying was requested". -/
theorem empty_list_relay_invoked_cex :
    ((universal_broadcast pfOk roOk (Content.msg mText) [] true
      100).2.countP isRelay) = 1 ∧
    finalStats pfOk roOk (Content.msg mText) [] true 100 =
      { total := 0, success := 0, failed := 0, errors := [] } :=
  ⟨rfl, rfl⟩

/-- C6 amended: a broadcast over an empty recipient list always returns the
all-zero statistics `{total: 0, success: 0, failed: 0, errors: {}}` and
issues zero per-recipient sends; however the relay IS still invoked exactly
once whenever the content is a message object and relaying was requested
(and never otherwise). -/
theorem empty_list_amended (pf : Int → Option String) (ro : RelayOracle)
    (content : Content) (ab : Bool) (csize : Nat) :
    finalStats pf ro content [] ab csize =
      { total := 0, success := 0, failed := 0, errors := [] } ∧
    (universal_broadcast pf ro content [] ab csize).2.countP isSend = 0 ∧
    (universal_broadcast pf ro content [] ab csize).2.countP isRelay =
      (if relayRequested content ab then 1 else 0) := by
  match content with
  | .str s => exact ⟨rfl, rfl, rfl⟩
  | .msg m =>
    cases ab with
    | false => exact ⟨rfl, rfl, rfl⟩
    | true =>
      cases hf : forward_message_with_entities ro m with
      | none =>
        refine ⟨?_, ?_, ?_⟩ <;>
          simp [finalStats, universal_broadcast, hf, initStats, isSend,
            isRelay, relayRequested, List.countP_cons]
      | some sent =>
        refine ⟨?_, ?_, ?_⟩ <;>
          simp [finalStats, universal_broadcast, hf, initStats, isSend,
            isRelay, relayRequested, List.countP_cons, runChunksList,
            chunksOf, chunksOfAux]

/-- C7 (code bug): the link validator accepts `https://example.com/x`,
rejects every string of length 4 and every string containing a space or
`<`, and rejects `tg://unknownaction` — but it also rejects `tg://join`,
which both the claim and the validator's own allow-list (`'join'` is in
`allowed_actions`) say should be accepted: `urlparse` places `join` in the
network-location component, leaving `parsed.path` empty, so the
`if not parsed.path` guard fires before the allow-list is ever consulted. -/
theorem link_validator_eval :
    validate_telegram_url "https://example.com/x" = (true, none) ∧
    validate_telegram_url "tg://join" = (false, some "malformed tg link") ∧
    (validate_telegram_url "tg://unknownaction").1 = false ∧
    (∀ url : String, url.length = 4 →
      (validate_telegram_url url).1 = false) ∧
    (∀ url : String,
      (url.toList.contains ' ' || url.toList.contains '<') = true →
      (validate_telegram_url url).1 = false) := by
  refine ⟨by decide, by decide, by decide, ?_, ?_⟩
  · intro url h
    simp [validate_telegram_url, h]
  · intro url hc
    cases hb : (validate_telegram_url url).1 with
    | false => rfl
    | true =>
      exfalso
      have hforb := validate_true_no_forbidden url hb
      have htrue : containsForbidden url = true := by
        rcases (Bool.or_eq_true _ _).mp hc with hsp | hlt
        · have hmem : ' ' ∈ url.toList := by
            simpa using hsp
          exact List.any_eq_true.mpr ⟨' ', hmem, by decide⟩
        · have hmem : '<' ∈ url.toList := by
            simpa using hlt
          exact List.any_eq_true.mpr ⟨'<', hmem, by decide⟩
      rw [hforb] at htrue
      exact Bool.false_ne_true htrue

/-- Witness for `link_validator_eval`: the two universally quantified
rejection conjuncts applied at `"abcd"` (length 4) and at a URL containing
a space. -/
theorem link_validator_eval_witness :
    (validate_telegram_url "abcd").1 = false ∧
    (validate_telegram_url "https://a b.cd").1 = false :=
  ⟨link_validator_eval.2.2.2.1 "abcd" (by decide),
   link_validator_eval.2.2.2.2 "https://a b.cd" (by decide)⟩

/-- C8 (code bug): the label validator itself behaves as claimed on the
concrete shapes (64 non-newline characters accepted, 65 rejected, a
newline rejected), but an invalid label still reaches the Dispatcher: in
`handle_button_text` the re-prompt for an invalid label is not followed by
a `return` (unlike the sibling link handler), so the handler proceeds to
set the confirmation state and invokes `universal_broadcast` to send the
preview with the oversized label attached. -/
theorem button_label_reaches_dispatcher :
    is_valid_button_text (String.mk (List.replicate 64 'a')) = true ∧
    is_valid_button_text (String.mk (List.replicate 65 'a')) = false ∧
    is_valid_button_text "ok\nok" = false ∧
    (handle_button_text (some (String.mk
      (List.replicate 65 'a')))).invalidReprompt = true ∧
    (handle_button_text (some (String.mk
      (List.replicate 65 'a')))).previewSent = true ∧
    (handle_button_text (some (String.mk
      (List.replicate 65 'a')))).previewLabel =
      some (String.mk (List.replicate 65 'a')) := by
  decide

/-- C9 (code bug): `save_offer_confirmation` returns a bare confirmation id
(queries.py), but `confirm_offer` unpacks its result as
`confirmation_id, is_duplicate = ...`; the unpacking raises `TypeError`
after the commit, the surrounding `except Exception` converts it into an
HTTP 500, and no fan-out runs — so the lead-submission caller receives an
error even though persistence succeeded, for every id and regardless of
the integration outcomes. -/
theorem confirm_offer_unpack_500 (cid : Int)
    (sheetsR : Except String Bool) (emailR webhookR : Except String Unit) :
    confirm_offer (save_offer_confirmation cid) sheetsR emailR webhookR =
      (.httpError 500
        "Internal server error: TypeError: cannot unpack non-iterable int object",
       { sheetsInvoked := false, emailInvoked := false,
         webhookInvoked := false }) :=
  rfl

end Barsa
